import Mathlib

/-!
Shallow embedding of the Universe-Simulator core (src/classic_universe.py and
the near-duplicate src/Python Models/butterfly_effect.py).

Numbers: the Python code computes with IEEE floats; the claims under
verification are stated for exact (rational) arithmetic, so every numeric
field is embedded as `ℚ`.  The single float operation with no rational
counterpart, `math.sqrt`, is abstracted as an explicit function parameter
`sqrt : ℚ → ℚ`; every theorem below holds for an arbitrary `sqrt`, so in
particular for the real square root and for the float one.

Mutation: the Python integrator mutates body objects in place through the
aliases held in the flattened body list.  Under the spec invariant that the
primary is never duplicated inside the other collections (each body occurs
once in the flattened list), this is rendered functionally: `integrate`
computes the updated flattened list and writes the bodies back to their
positions in the system (`unflatten`).

Randomness: `random.choice` is modelled by `choice`, driven by an abstract
stream of naturals (`RandState`); `choice` on an empty list yields `none`
(the guarded `return` of classic_universe.py, resp. the caught IndexError
of butterfly_effect.py) and does not advance the stream.
-/

namespace Cosmos

/-- `Universe.c` from the source: 2.997_924_58e8, exactly. -/
def Universe.c : ℚ := 299792458

/-- `Universe.G` from the source: 6.674_30e-11, exactly. -/
def Universe.G : ℚ := 66743 / 10 ^ 15

/-- `Universe.h` from the source: 6.626_070_15e-34, exactly. -/
def Universe.h : ℚ := 662607015 / 10 ^ 42

/-- `CelestialBody` dataclass: name, mass, position, velocity.  The role
subclasses (Star, WhiteDwarf, NeutronStar, BlackHole, Moon, Asteroid) add
no fields and no behaviour, so they are all embedded as `CelestialBody`;
`Planet` (the one subclass with extra state, its moons) is its own
structure below. -/
structure CelestialBody where
  name : String
  mass : ℚ
  x : ℚ
  y : ℚ
  vx : ℚ
  vy : ℚ
  deriving DecidableEq

instance : Inhabited CelestialBody :=
  ⟨⟨ "", 0, 0, 0, 0, 0⟩⟩

/-- `CelestialBody.force_from`:
```
dx, dy = other.x - self.x, other.y - self.y
r2 = dx*dx + dy*dy
if r2 < 1e-10: return (0.0, 0.0)
F = Universe.G * self.mass * other.mass / r2
r = math.sqrt(r2)
return F*dx/r, F*dy/r
``` -/
def CelestialBody.force_from (sqrt : ℚ → ℚ) (self other : CelestialBody) : ℚ × ℚ :=
  let dx := other.x - self.x
  let dy := other.y - self.y
  let r2 := dx * dx + dy * dy
  if r2 < 1 / 10 ^ 10 then (0, 0)
  else
    let F := Universe.G * self.mass * other.mass / r2
    let r := sqrt r2
    (F * dx / r, F * dy / r)

/-- `CelestialBody.update`:
```
if self.mass <= 0: return
ax, ay = fx / self.mass, fy / self.mass
self.vx += ax * dt
self.vy += ay * dt
self.x += self.vx * dt
self.y += self.vy * dt
``` -/
def CelestialBody.update (self : CelestialBody) (fx fy dt : ℚ) : CelestialBody :=
  if self.mass ≤ 0 then self
  else
    let ax := fx / self.mass
    let ay := fy / self.mass
    let vx1 := self.vx + ax * dt
    let vy1 := self.vy + ay * dt
    { self with vx := vx1, vy := vy1, x := self.x + vx1 * dt, y := self.y + vy1 * dt }

/-- `Planet`: a `CelestialBody` owning an ordered list of moons. -/
structure Planet where
  body : CelestialBody
  moons : List CelestialBody
  deriving DecidableEq

/-- `StarSystem` dataclass. -/
structure StarSystem where
  name : String
  primary : CelestialBody
  planets : List Planet
  asteroids : List CelestialBody
  stellar_remnants : List CelestialBody
  deriving DecidableEq

/-- The flattened body list built at the top of `StarSystem.integrate`:
`[primary] + planets + asteroids + stellar_remnants`, then each planet's
moons appended in planet order. -/
def StarSystem.flatten (s : StarSystem) : List CelestialBody :=
  s.primary ::
    (s.planets.map Planet.body ++ s.asteroids ++ s.stellar_remnants ++
      (s.planets.map Planet.moons).flatten)

/-- One iteration of the inner pair loop of `integrate`:
`fx, fy = bodies[i].force_from(bodies[j]); forces[i] += f; forces[j] -= f`
(Newton's third law). -/
def pairStep (sqrt : ℚ → ℚ) (bodies : List CelestialBody) (i : ℕ)
    (forces : List (ℚ × ℚ)) (j : ℕ) : List (ℚ × ℚ) :=
  let f := (bodies.getD i default).force_from sqrt (bodies.getD j default)
  let forces1 := forces.set i (forces.getD i 0 + f)
  forces1.set j (forces1.getD j 0 - f)

/-- The double pair loop of `integrate`: `forces = [[0,0]]*n`, then
`for i in range(n): for j in range(i+1, n): ...`. -/
def computeForces (sqrt : ℚ → ℚ) (bodies : List CelestialBody) : List (ℚ × ℚ) :=
  (List.range bodies.length).foldl
    (fun forces i =>
      ((List.range bodies.length).drop (i + 1)).foldl (pairStep sqrt bodies i) forces)
    (List.replicate bodies.length (0, 0))

/-- Write a list of (updated) planet bodies and a flat list of (updated)
moons back into a planet list, keeping each planet's moon count. -/
def rebuildPlanets : List Planet → List CelestialBody → List CelestialBody → List Planet
  | [], _, _ => []
  | p :: ps, pbodies, ms =>
    { body := pbodies.headI, moons := ms.take p.moons.length } ::
      rebuildPlanets ps pbodies.tail (ms.drop p.moons.length)

/-- Write an updated flattened body list back to its positions in the
system: the functional rendering of the in-place mutation performed through
the aliases of the `bodies` list in the Python `integrate`. -/
def StarSystem.unflatten (s : StarSystem) (bs : List CelestialBody) : StarSystem :=
  let rest0 := bs.tail
  let pbodies := rest0.take s.planets.length
  let rest1 := rest0.drop s.planets.length
  let asts := rest1.take s.asteroids.length
  let rest2 := rest1.drop s.asteroids.length
  let rems := rest2.take s.stellar_remnants.length
  let moonsPart := rest2.drop s.stellar_remnants.length
  { s with
    primary := bs.headI
    planets := rebuildPlanets s.planets pbodies moonsPart
    asteroids := asts
    stellar_remnants := rems }

/-- `StarSystem.integrate(dt)`: flatten, `if n < 2: return`, accumulate
pairwise forces, then `body.update(fx, fy, dt)` for every body with its
accumulated force (`zip(bodies, forces)`). -/
def StarSystem.integrate (sqrt : ℚ → ℚ) (s : StarSystem) (dt : ℚ) : StarSystem :=
  let bodies := s.flatten
  let n := bodies.length
  if n < 2 then s
  else
    let forces := computeForces sqrt bodies
    s.unflatten ((bodies.zip forces).map fun bf => bf.1.update bf.2.1 bf.2.2 dt)

/-- `Nebula` dataclass (decorative, never integrated). -/
structure Nebula where
  name : String
  nebula_type : String
  mass : ℚ
  x : ℚ
  y : ℚ
  size : ℚ
  deriving DecidableEq

/-- `GlobularCluster` dataclass (decorative, never integrated). -/
structure GlobularCluster where
  name : String
  star_count : ℕ
  mass : ℚ
  x : ℚ
  y : ℚ
  deriving DecidableEq

/-- `Quasar` dataclass (decorative, never integrated). -/
structure Quasar where
  name : String
  luminosity : ℚ
  central_black_hole_mass : ℚ
  x : ℚ
  y : ℚ
  deriving DecidableEq

/-- `Galaxy` dataclass: dynamical star systems plus decorative entities. -/
structure Galaxy where
  name : String
  star_systems : List StarSystem
  nebulae : List Nebula
  globular_clusters : List GlobularCluster
  central_black_hole : Option CelestialBody
  quasar : Option Quasar
  deriving DecidableEq

/-- `GalaxyCluster` dataclass. -/
structure GalaxyCluster where
  name : String
  galaxies : List Galaxy
  deriving DecidableEq

/-- `SuperCluster` dataclass. -/
structure SuperCluster where
  name : String
  galaxy_clusters : List GalaxyCluster
  deriving DecidableEq

/-- `Universe`: the top-level container of superclusters. -/
structure Universe where
  superclusters : List SuperCluster
  deriving DecidableEq

/-- The pseudo-random source backing `random.choice`: an abstract stream of
naturals and a cursor into it. -/
structure RandState where
  seq : ℕ → ℕ
  pos : ℕ

/-- Advance the random stream by one draw. -/
def RandState.next (g : RandState) : RandState :=
  ⟨g.seq, g.pos + 1⟩

/-- `random.choice(l)`: uniform selection modelled as indexing by the next
stream value; on an empty list the event path yields no element (the
guarded `return` of classic_universe.py, the caught IndexError of
butterfly_effect.py) and the stream is not advanced. -/
def choice {α : Type} (g : RandState) (l : List α) : Option α × RandState :=
  if l.isEmpty then (none, g)
  else (l[g.seq g.pos % l.length]?, g.next)

/-- `Universe._random_quantum_event`: walk supercluster → galaxy cluster →
galaxy → star system with a uniform random pick at each level, bailing out
(`none`) at the first empty collection, then measure a random spin on the
chosen system's primary.  Returns the recorded measurement (primary name,
spin), if any, and the advanced random state. -/
def Universe.randomQuantumEvent (u : Universe) (g : RandState) :
    Option (String × String) × RandState :=
  match choice g u.superclusters with
  | (none, g1) => (none, g1)
  | (some sc, g1) =>
    match choice g1 sc.galaxy_clusters with
    | (none, g2) => (none, g2)
    | (some gc, g2) =>
      match choice g2 gc.galaxies with
      | (none, g3) => (none, g3)
      | (some gal, g3) =>
        match choice g3 gal.star_systems with
        | (none, g4) => (none, g4)
        | (some ss, g4) =>
          match choice g4 [ "up", "down" ] with
          | (none, g5) => (none, g5)
          | (some spin, g5) => (some (ss.primary.name, spin), g5)

/-- One systems pass of `Universe.run`: integrate every star system
reachable through the hierarchy, in hierarchy-declaration order. -/
def Universe.stepOnce (sqrt : ℚ → ℚ) (u : Universe) (dt : ℚ) : Universe :=
  { u with
    superclusters := u.superclusters.map fun sc =>
      { sc with
        galaxy_clusters := sc.galaxy_clusters.map fun gc =>
          { gc with
            galaxies := gc.galaxies.map fun gal =>
              { gal with
                star_systems := gal.star_systems.map fun ss =>
                  ss.integrate sqrt dt } } } }

/-- The number of star systems reachable through the hierarchy, i.e. the
number of `integrate` calls one systems pass performs (the per-step
`total_systems` counter of classic_universe.py). -/
def Universe.systemCount (u : Universe) : ℕ :=
  (u.superclusters.map fun sc =>
    (sc.galaxy_clusters.map fun gc =>
      (gc.galaxies.map fun gal => gal.star_systems.length).sum).sum).sum

/-- Result of the run loop: final universe, final random state, total
number of `integrate` calls performed (instrumentation), the list of
quantum event attempts (each tagged with the step counter at which it
fired and carrying the recorded measurement, if any), and the state at
loop exit of classic_universe.py's `total_systems` local: that variable is
assigned only inside the loop body, so it is `none` (unbound) when the
loop body never executed and `some` the last pass's count otherwise. -/
structure RunResult where
  univ : Universe
  rng : RandState
  integrations : ℕ
  events : List (ℕ × Option (String × String))
  total_systems : Option ℕ

/-- The loop body of `Universe.run`, recursing on the number of remaining
steps with `k` the current step counter: a systems pass, then, on even
`k`, one quantum event attempt.  Each executed iteration rebinds the
`total_systems` local (classic_universe.py resets it to 0 and increments
it once per integrated system, so it ends the iteration at that pass's
system count). -/
def Universe.runFrom (sqrt : ℚ → ℚ) (dt : ℚ) :
    Universe → RandState → ℕ → ℕ → ℕ → List (ℕ × Option (String × String)) →
      Option ℕ → RunResult
  | u, g, _, 0, nInt, log, tsys => ⟨u, g, nInt, log, tsys⟩
  | u, g, k, remaining + 1, nInt, log, _ =>
    let u1 := u.stepOnce sqrt dt
    let nInt1 := nInt + u.systemCount
    if k % 2 = 0 then
      match u1.randomQuantumEvent g with
      | (ev, g1) =>
        Universe.runFrom sqrt dt u1 g1 (k + 1) remaining nInt1 (log ++ [(k, ev)])
          (some u.systemCount)
    else
      Universe.runFrom sqrt dt u1 g (k + 1) remaining nInt1 log (some u.systemCount)

/-- The `for k in range(steps)` loop shared by both files' `run` (and the
whole of butterfly_effect.py's `run`, which returns as soon as the loop
ends).  Before the loop the `total_systems` local is unbound (`none`). -/
def Universe.run (sqrt : ℚ → ℚ) (u : Universe) (g : RandState) (steps : ℕ) (dt : ℚ) :
    RunResult :=
  Universe.runFrom sqrt dt u g 0 steps 0 [] none

/-- classic_universe.py's `Universe.run` (lines 25–43): the loop above
followed by the final report
`print(f"Simulation complete. Integrated {total_systems} star systems.")`,
whose read of the loop-local `total_systems` raises `UnboundLocalError`
when no loop iteration ever bound it — i.e. exactly when `steps = 0`.
The raise is modelled as `none`. -/
def Universe.runClassic (sqrt : ℚ → ℚ) (u : Universe) (g : RandState) (steps : ℕ)
    (dt : ℚ) : Option RunResult :=
  let res := u.run sqrt g steps dt
  match res.total_systems with
  | none => none
  | some _ => some res

/-! Sample objects used by the witness theorems. -/

/-- An arbitrary concrete stand-in for the abstracted `math.sqrt`. -/
def sampleSqrt : ℚ → ℚ := fun q => q

def bodyA : CelestialBody := ⟨ "A", 1, 0, 0, 0, 0⟩

def bodyB : CelestialBody := ⟨ "B", 2, 1, 0, 0, 0⟩

def bodyC : CelestialBody := ⟨ "C", 3, 1, 2, 9, 9⟩

def bodyD : CelestialBody := ⟨ "D", 5, 1, 2, 0, 0⟩

def twoBodySystem : StarSystem := ⟨ "S", bodyA, [], [bodyB], []⟩

def oneBodySystem : StarSystem := ⟨ "S1", bodyA, [], [], []⟩

def sampleRand : RandState := ⟨fun _ => 0, 0⟩

def oneSystemUniverse : Universe :=
  ⟨[⟨ "sc", [⟨ "gc", [⟨ "gal", [twoBodySystem], [], [], none, none⟩]⟩]⟩]⟩

/-! Helper lemmas about the force accumulation array. -/

lemma sum_set_getD_add (l : List (ℚ × ℚ)) (v : ℚ × ℚ) :
    ∀ i, i < l.length → (l.set i (l.getD i 0 + v)).sum = l.sum + v := by
  induction l with
  | nil => intro i hi; simp at hi
  | cons a t ih =>
    intro i hi
    cases i with
    | zero => simp [List.sum_cons]; ring
    | succ n =>
      simp only [List.getD_cons_succ, List.set_cons_succ, List.sum_cons]
      rw [ih n (by simpa using hi)]
      ring

lemma sum_set_getD_sub (l : List (ℚ × ℚ)) (v : ℚ × ℚ) {i : ℕ} (hi : i < l.length) :
    (l.set i (l.getD i 0 - v)).sum = l.sum - v := by
  have := sum_set_getD_add l (-v) i hi
  simpa [sub_eq_add_neg] using this

lemma pairStep_length (sqrt : ℚ → ℚ) (bodies : List CelestialBody) (i : ℕ)
    (forces : List (ℚ × ℚ)) (j : ℕ) :
    (pairStep sqrt bodies i forces j).length = forces.length := by
  simp [pairStep]

lemma pairStep_sum (sqrt : ℚ → ℚ) (bodies : List CelestialBody) (i j : ℕ)
    (forces : List (ℚ × ℚ)) (hi : i < forces.length) (hj : j < forces.length) :
    (pairStep sqrt bodies i forces j).sum = forces.sum := by
  unfold pairStep
  rw [sum_set_getD_sub _ _ (by simpa using hj), sum_set_getD_add _ _ _ hi]
  abel

lemma computeForces_inv (sqrt : ℚ → ℚ) (bodies : List CelestialBody) :
    (computeForces sqrt bodies).length = bodies.length ∧
      (computeForces sqrt bodies).sum = 0 := by
  unfold computeForces
  refine List.foldlRecOn (motive := fun (fs : List (ℚ × ℚ)) => fs.length = bodies.length ∧ fs.sum = 0)
    _ _ _ ⟨by simp, by simp⟩ ?_
  rintro forces ⟨hlen, hsum⟩ i hi
  refine List.foldlRecOn (motive := fun (fs : List (ℚ × ℚ)) => fs.length = bodies.length ∧ fs.sum = 0)
    _ _ _ ⟨hlen, hsum⟩ ?_
  rintro fs ⟨hlen2, hsum2⟩ j hj
  have hi1 : i < bodies.length := List.mem_range.mp hi
  have hj1 : j < bodies.length := List.mem_range.mp (List.mem_of_mem_drop hj)
  refine ⟨by simpa [pairStep_length] using hlen2, ?_⟩
  rw [pairStep_sum sqrt bodies i j fs (by omega) (by omega)]
  exact hsum2

lemma computeForces_length (sqrt : ℚ → ℚ) (bodies : List CelestialBody) :
    (computeForces sqrt bodies).length = bodies.length :=
  (computeForces_inv sqrt bodies).1

/-! The claims. -/

/-- Claim C1: for every star system with at least two flattened bodies, the
per-body force vectors accumulated by one `integrate(dt)` call (the pair
loop `computeForces` over the flattened body list, each unordered pair
accumulated into body `i` and subtracted from body `j`) sum to exactly
(0, 0) in exact rational arithmetic. -/
theorem claim1_force_sum_zero (sqrt : ℚ → ℚ) (s : StarSystem) (dt : ℚ)
    (h : 2 ≤ s.flatten.length) :
    (computeForces sqrt s.flatten).sum = (0, 0) :=
  (computeForces_inv sqrt s.flatten).2

theorem claim1_witness :
    2 ≤ twoBodySystem.flatten.length ∧
      (computeForces sampleSqrt twoBodySystem.flatten).sum = (0, 0) :=
  ⟨by decide, claim1_force_sum_zero sampleSqrt twoBodySystem 1 (by decide)⟩

/-- Claim C2 (code bug): the claim says `run(steps = 0)` completes without
raising on every universe, but classic_universe.py's `run` raises
`UnboundLocalError`: its final report (line 43) reads the `total_systems`
local, which is assigned only inside the loop (lines 31, 37) and is never
bound when the loop body does not execute.  Formally: `runClassic` with
`steps = 0` fails (`none`) for every universe, while the loop itself —
and hence butterfly_effect.py's `run`, which has no final report — is the
trivial no-op the claim describes (universe, rng unchanged, no
integrations, no events, `total_systems` unbound). -/
theorem claim2_run_zero_steps_bug (sqrt : ℚ → ℚ) (u : Universe) (g : RandState)
    (dt : ℚ) :
    u.runClassic sqrt g 0 dt = none ∧
      u.run sqrt g 0 dt = RunResult.mk u g 0 [] none :=
  ⟨rfl, rfl⟩

/-- Claim C3: `force_from` is antisymmetric for distinct bodies at squared
separation at least the singularity threshold 1e-10.  (The embedding's
`force_from` is a pure function on immutable values, so freedom from side
effects holds by construction.) -/
theorem claim3_force_antisymm (sqrt : ℚ → ℚ) (A B : CelestialBody) (hne : A ≠ B)
    (h : 1 / 10 ^ 10 ≤ (B.x - A.x) * (B.x - A.x) + (B.y - A.y) * (B.y - A.y)) :
    A.force_from sqrt B = - (B.force_from sqrt A) := by
  have h2 : (A.x - B.x) * (A.x - B.x) + (A.y - B.y) * (A.y - B.y)
      = (B.x - A.x) * (B.x - A.x) + (B.y - A.y) * (B.y - A.y) := by ring
  simp only [CelestialBody.force_from, h2]
  rw [if_neg (not_lt.mpr h), if_neg (not_lt.mpr h)]
  rw [Prod.neg_mk, Prod.mk.injEq]
  constructor <;> ring

theorem claim3_witness :
    bodyA ≠ bodyB ∧
      1 / 10 ^ 10 ≤ (bodyB.x - bodyA.x) * (bodyB.x - bodyA.x) +
        (bodyB.y - bodyA.y) * (bodyB.y - bodyA.y) ∧
      bodyA.force_from sampleSqrt bodyB = - (bodyB.force_from sampleSqrt bodyA) :=
  ⟨by decide, by norm_num [bodyA, bodyB],
    claim3_force_antisymm sampleSqrt bodyA bodyB (by decide) (by norm_num [bodyA, bodyB])⟩

/-- Claim C4: `update(fx, fy, dt)` leaves a body with mass ≤ 0 unchanged;
otherwise it sets the velocity from the current-step acceleration
(force/mass) first, and then advances the position using the new velocity.
Name and mass are untouched. -/
theorem claim4_update_semantics (b : CelestialBody) (fx fy dt : ℚ) :
    (b.mass ≤ 0 → b.update fx fy dt = b) ∧
      (0 < b.mass →
        (b.update fx fy dt).vx = b.vx + fx / b.mass * dt ∧
        (b.update fx fy dt).vy = b.vy + fy / b.mass * dt ∧
        (b.update fx fy dt).x = b.x + (b.update fx fy dt).vx * dt ∧
        (b.update fx fy dt).y = b.y + (b.update fx fy dt).vy * dt ∧
        (b.update fx fy dt).name = b.name ∧
        (b.update fx fy dt).mass = b.mass) := by
  constructor
  · intro h
    simp [CelestialBody.update, h]
  · intro h
    simp [CelestialBody.update, not_le.mpr h]

theorem claim4_witness :
    (bodyA.update 2 4 10).vx = bodyA.vx + 2 / bodyA.mass * 10 ∧
      (bodyA.update 2 4 10).vy = bodyA.vy + 4 / bodyA.mass * 10 ∧
      (bodyA.update 2 4 10).x = bodyA.x + (bodyA.update 2 4 10).vx * 10 ∧
      (bodyA.update 2 4 10).y = bodyA.y + (bodyA.update 2 4 10).vy * 10 ∧
      (bodyA.update 2 4 10).name = bodyA.name ∧
      (bodyA.update 2 4 10).mass = bodyA.mass :=
  (claim4_update_semantics bodyA 2 4 10).2 (by decide)

/-- Claim C7: whenever the squared separation is strictly below the
singularity threshold 1e-10, `force_from` returns exactly (0, 0),
whatever the two masses. -/
theorem claim7_force_singularity (sqrt : ℚ → ℚ) (A B : CelestialBody)
    (h : (B.x - A.x) * (B.x - A.x) + (B.y - A.y) * (B.y - A.y) < 1 / 10 ^ 10) :
    A.force_from sqrt B = (0, 0) := by
  simp only [CelestialBody.force_from]
  rw [if_pos h]

theorem claim7_witness :
    (bodyD.x - bodyC.x) * (bodyD.x - bodyC.x) +
        (bodyD.y - bodyC.y) * (bodyD.y - bodyC.y) < 1 / 10 ^ 10 ∧
      bodyC.force_from sampleSqrt bodyD = (0, 0) :=
  ⟨by norm_num [bodyC, bodyD],
    claim7_force_singularity sampleSqrt bodyC bodyD (by norm_num [bodyC, bodyD])⟩

lemma integrate_of_small (sqrt : ℚ → ℚ) (s : StarSystem) (dt : ℚ)
    (h : s.flatten.length < 2) :
    s.integrate sqrt dt = s := by
  simp [StarSystem.integrate, h]

/-- Claim C9: on a star system whose flattened body list has fewer than two
elements, `integrate(dt)` is the identity for every `dt`: no body is
mutated and no force is computed (the guard `n < 2` returns before the
pair loop). -/
theorem claim9_integrate_small_noop (sqrt : ℚ → ℚ) (s : StarSystem) (dt : ℚ)
    (h : s.flatten.length < 2) :
    s.integrate sqrt dt = s :=
  integrate_of_small sqrt s dt h

theorem claim9_witness :
    oneBodySystem.flatten.length < 2 ∧
      oneBodySystem.integrate sampleSqrt 7 = oneBodySystem :=
  ⟨by decide, claim9_integrate_small_noop sampleSqrt oneBodySystem 7 (by decide)⟩

/-! Lemmas about the simulation loop. -/

def emptyUniverse : Universe := ⟨[]⟩

lemma stepOnce_systemCount (sqrt : ℚ → ℚ) (u : Universe) (dt : ℚ) :
    (u.stepOnce sqrt dt).systemCount = u.systemCount := by
  simp [Universe.stepOnce, Universe.systemCount, List.map_map, Function.comp_def]

lemma runFrom_integrations (sqrt : ℚ → ℚ) (dt : ℚ) :
    ∀ (r : ℕ) (u : Universe) (g : RandState) (k nInt : ℕ)
      (log : List (ℕ × Option (String × String))) (tsys : Option ℕ),
      (Universe.runFrom sqrt dt u g k r nInt log tsys).integrations =
        nInt + r * u.systemCount := by
  intro r
  induction r with
  | zero => intro u g k nInt log tsys; simp [Universe.runFrom]
  | succ n ih =>
    intro u g k nInt log tsys
    by_cases hk : k % 2 = 0
    · cases hEv : (u.stepOnce sqrt dt).randomQuantumEvent g with
      | mk ev g1 =>
        simp only [Universe.runFrom, if_pos hk, hEv]
        rw [ih, stepOnce_systemCount]
        ring
    · simp only [Universe.runFrom, if_neg hk]
      rw [ih, stepOnce_systemCount]
      ring

lemma runFrom_events_fst (sqrt : ℚ → ℚ) (dt : ℚ) :
    ∀ (r : ℕ) (u : Universe) (g : RandState) (k nInt : ℕ)
      (log : List (ℕ × Option (String × String))) (tsys : Option ℕ),
      (Universe.runFrom sqrt dt u g k r nInt log tsys).events.map Prod.fst =
        log.map Prod.fst ++ (List.range' k r).filter (fun m => m % 2 == 0) := by
  intro r
  induction r with
  | zero => intro u g k nInt log tsys; simp [Universe.runFrom]
  | succ n ih =>
    intro u g k nInt log tsys
    rw [List.range'_succ]
    by_cases hk : k % 2 = 0
    · cases hEv : (u.stepOnce sqrt dt).randomQuantumEvent g with
      | mk ev g1 =>
        simp only [Universe.runFrom, if_pos hk, hEv]
        rw [ih]
        simp [List.filter_cons, hk]
    · simp only [Universe.runFrom, if_neg hk]
      rw [ih]
      simp [List.filter_cons, hk]

/-- Claim C5: over a hierarchy with exactly one reachable star system,
`run(steps := 6, dt)` performs exactly 6 `integrate` calls (one per step,
the systems pass mapping the hierarchy in declaration order) and attempts
exactly 3 quantum events, at step counters 0, 2 and 4, each fired after
the systems pass of its (even) step. -/
theorem claim5_run_counts (sqrt : ℚ → ℚ) (u : Universe) (g : RandState) (dt : ℚ)
    (h : u.systemCount = 1) :
    (u.run sqrt g 6 dt).integrations = 6 ∧
      (u.run sqrt g 6 dt).events.map Prod.fst = [0, 2, 4] := by
  constructor
  · rw [Universe.run, runFrom_integrations, h]
  · rw [Universe.run, runFrom_events_fst]
    rfl

theorem claim5_witness :
    oneSystemUniverse.systemCount = 1 ∧
      (oneSystemUniverse.run sampleSqrt sampleRand 6 86400).integrations = 6 ∧
      (oneSystemUniverse.run sampleSqrt sampleRand 6 86400).events.map Prod.fst =
        [0, 2, 4] :=
  ⟨rfl, claim5_run_counts sampleSqrt oneSystemUniverse sampleRand 86400 rfl⟩

lemma stepOnce_of_empty (sqrt : ℚ → ℚ) (dt : ℚ) (u : Universe)
    (h : u.superclusters = []) : u.stepOnce sqrt dt = u := by
  cases u with
  | mk scs =>
    simp only at h
    subst h
    rfl

lemma quantumEvent_of_empty (u : Universe) (g : RandState)
    (h : u.superclusters = []) : u.randomQuantumEvent g = (none, g) := by
  simp [Universe.randomQuantumEvent, choice, h]

lemma runFrom_of_empty (sqrt : ℚ → ℚ) (dt : ℚ) :
    ∀ (r : ℕ) (u : Universe) (g : RandState) (k nInt : ℕ)
      (log : List (ℕ × Option (String × String))) (tsys : Option ℕ),
      u.superclusters = [] →
      Universe.runFrom sqrt dt u g k r nInt log tsys =
        ⟨u, g, nInt,
          log ++ ((List.range' k r).filter (fun m => m % 2 == 0)).map
            (fun m => (m, none)),
          if r = 0 then tsys else some 0⟩ := by
  intro r
  induction r with
  | zero => intro u g k nInt log tsys h; simp [Universe.runFrom]
  | succ n ih =>
    intro u g k nInt log tsys h
    have hcount : u.systemCount = 0 := by
      simp [Universe.systemCount, h]
    rw [List.range'_succ]
    by_cases hk : k % 2 = 0
    · simp only [Universe.runFrom, if_pos hk, stepOnce_of_empty sqrt dt u h,
        quantumEvent_of_empty u g h]
      rw [ih u g (k + 1) (nInt + u.systemCount) _ _ h]
      simp [List.filter_cons, hk, hcount, ite_self]
    · simp only [Universe.runFrom, if_neg hk, stepOnce_of_empty sqrt dt u h]
      rw [ih u g (k + 1) (nInt + u.systemCount) _ _ h]
      simp [List.filter_cons, hk, hcount, ite_self]

/-- Claim C6: whenever the quantum-event random walk meets an empty
collection at any level (no superclusters; no galaxy clusters in the
chosen supercluster; no galaxies in the chosen cluster; no star systems in
the chosen galaxy), only that event is skipped: no measurement is recorded
(`none`), nothing escapes (the embedding is total), and the run continues.
In particular, `run` on a universe with no superclusters performs zero
integrations, records no quantum measurement, and returns the universe
unchanged. -/
theorem claim6_quantum_skip (sqrt : ℚ → ℚ) (u : Universe) (g : RandState)
    (steps : ℕ) (dt : ℚ) :
    (u.superclusters = [] → u.randomQuantumEvent g = (none, g)) ∧
      (∀ sc g1, choice g u.superclusters = (some sc, g1) →
        sc.galaxy_clusters = [] → u.randomQuantumEvent g = (none, g1)) ∧
      (∀ sc g1 gc g2, choice g u.superclusters = (some sc, g1) →
        choice g1 sc.galaxy_clusters = (some gc, g2) →
        gc.galaxies = [] → u.randomQuantumEvent g = (none, g2)) ∧
      (∀ sc g1 gc g2 gal g3, choice g u.superclusters = (some sc, g1) →
        choice g1 sc.galaxy_clusters = (some gc, g2) →
        choice g2 gc.galaxies = (some gal, g3) →
        gal.star_systems = [] → u.randomQuantumEvent g = (none, g3)) ∧
      (u.superclusters = [] →
        (u.run sqrt g steps dt).integrations = 0 ∧
          (u.run sqrt g steps dt).univ = u ∧
          ∀ e ∈ (u.run sqrt g steps dt).events, e.2 = none) := by
  refine ⟨fun h => quantumEvent_of_empty u g h, ?_, ?_, ?_, ?_⟩
  · intro sc g1 h1 hemp
    simp only [Universe.randomQuantumEvent, h1]
    simp [choice, hemp]
  · intro sc g1 gc g2 h1 h2 hemp
    simp only [Universe.randomQuantumEvent, h1, h2]
    simp [choice, hemp]
  · intro sc g1 gc g2 gal g3 h1 h2 h3 hemp
    simp only [Universe.randomQuantumEvent, h1, h2, h3]
    simp [choice, hemp]
  · intro h
    rw [Universe.run, runFrom_of_empty sqrt dt steps u g 0 0 [] none h]
    refine ⟨?_, rfl, ?_⟩
    · simp
    · intro e he
      simp only [List.nil_append, List.mem_map] at he
      obtain ⟨m, _, rfl⟩ := he
      rfl

theorem claim6_witness :
    (emptyUniverse.run sampleSqrt sampleRand 5 1).integrations = 0 ∧
      (emptyUniverse.run sampleSqrt sampleRand 5 1).univ = emptyUniverse ∧
      ∀ e ∈ (emptyUniverse.run sampleSqrt sampleRand 5 1).events, e.2 = none :=
  (claim6_quantum_skip sampleSqrt emptyUniverse sampleRand 5 1).2.2.2.2 rfl

/-! Frame machinery: everything except the kinematic fields `x`, `y`,
`vx`, `vy` of the bodies is collected into a "tag"; the integrator and the
run are shown to preserve tags exactly. -/

/-- Everything `update` may not touch in one body: its name and mass. -/
def CelestialBody.tag (b : CelestialBody) : String × ℚ := (b.name, b.mass)

abbrev BodyTag := String × ℚ

/-- A planet's non-kinematic data: its body's tag and its moons' tags, in
order. -/
def Planet.tag (p : Planet) : BodyTag × List BodyTag :=
  (p.body.tag, p.moons.map CelestialBody.tag)

abbrev SystemTag :=
  String × BodyTag × List (BodyTag × List BodyTag) × List BodyTag × List BodyTag

/-- A star system's non-kinematic data: its name, the primary's tag, and
the tags of the planet/asteroid/stellar-remnant collections, in order. -/
def StarSystem.tag (s : StarSystem) : SystemTag :=
  (s.name, s.primary.tag, s.planets.map Planet.tag,
    s.asteroids.map CelestialBody.tag, s.stellar_remnants.map CelestialBody.tag)

/-- A galaxy's non-kinematic data: its name, its systems' tags, and all
decorative entities wholesale (they are never mutated at all). -/
def Galaxy.tag (gal : Galaxy) :
    String × List SystemTag × List Nebula × List GlobularCluster ×
      Option CelestialBody × Option Quasar :=
  (gal.name, gal.star_systems.map StarSystem.tag, gal.nebulae,
    gal.globular_clusters, gal.central_black_hole, gal.quasar)

def GalaxyCluster.tag (gc : GalaxyCluster) :=
  (gc.name, gc.galaxies.map Galaxy.tag)

def SuperCluster.tag (sc : SuperCluster) :=
  (sc.name, sc.galaxy_clusters.map GalaxyCluster.tag)

def Universe.tag (u : Universe) :=
  u.superclusters.map SuperCluster.tag

/-- All dynamical bodies of a galaxy (the ones its systems integrate). -/
def Galaxy.allBodies (gal : Galaxy) : List CelestialBody :=
  (gal.star_systems.map StarSystem.flatten).flatten

def GalaxyCluster.allBodies (gc : GalaxyCluster) : List CelestialBody :=
  (gc.galaxies.map Galaxy.allBodies).flatten

def SuperCluster.allBodies (sc : SuperCluster) : List CelestialBody :=
  (sc.galaxy_clusters.map GalaxyCluster.allBodies).flatten

/-- All dynamical bodies reachable in the universe. -/
def Universe.allBodies (u : Universe) : List CelestialBody :=
  (u.superclusters.map SuperCluster.allBodies).flatten

lemma update_tag (b : CelestialBody) (fx fy dt : ℚ) :
    (b.update fx fy dt).tag = b.tag := by
  unfold CelestialBody.update
  split
  · rfl
  · rfl

lemma zipUpdate_map_tag :
    ∀ (l : List CelestialBody) (fs : List (ℚ × ℚ)) (dt : ℚ), l.length ≤ fs.length →
      (((l.zip fs).map fun bf => bf.1.update bf.2.1 bf.2.2 dt).map CelestialBody.tag)
        = l.map CelestialBody.tag := by
  intro l
  induction l with
  | nil => intro fs dt _; simp
  | cons b bs ih =>
    intro fs dt h
    cases fs with
    | nil => simp at h
    | cons f fsr =>
      simp only [List.zip_cons_cons, List.map_cons]
      rw [update_tag, ih fsr dt (by simpa using h)]

lemma rebuildPlanets_tag :
    ∀ (ps : List Planet) (cs ms : List CelestialBody),
      cs.map CelestialBody.tag = (ps.map Planet.body).map CelestialBody.tag →
      ms.map CelestialBody.tag = ((ps.map Planet.moons).flatten).map CelestialBody.tag →
      (rebuildPlanets ps cs ms).map Planet.tag = ps.map Planet.tag := by
  intro ps
  induction ps with
  | nil => intro cs ms _ _; rfl
  | cons p ps ih =>
    intro cs ms h1 h2
    cases cs with
    | nil => simp at h1
    | cons c cs1 =>
      simp only [List.map_cons] at h1
      have hc : c.tag = p.body.tag := (List.cons.inj h1).1
      have hcs : cs1.map CelestialBody.tag = (ps.map Planet.body).map CelestialBody.tag :=
        (List.cons.inj h1).2
      rw [List.map_cons, List.flatten_cons, List.map_append] at h2
      have hlen : (p.moons.map CelestialBody.tag).length = p.moons.length := by simp
      have htake : (ms.take p.moons.length).map CelestialBody.tag =
          p.moons.map CelestialBody.tag := by
        rw [List.map_take, h2, List.take_left' hlen]
      have hdrop : (ms.drop p.moons.length).map CelestialBody.tag =
          ((ps.map Planet.moons).flatten).map CelestialBody.tag := by
        rw [List.map_drop, h2, List.drop_left' hlen]
      simp only [rebuildPlanets, List.map_cons]
      congr 1
      · simp only [Planet.tag, List.headI_cons, hc, htake]
      · exact ih cs1 (ms.drop p.moons.length) (by simpa using hcs) hdrop

lemma unflatten_tag (s : StarSystem) (bs : List CelestialBody)
    (h : bs.map CelestialBody.tag = s.flatten.map CelestialBody.tag) :
    (s.unflatten bs).tag = s.tag := by
  cases bs with
  | nil =>
    have := congrArg List.length h
    simp [StarSystem.flatten] at this
  | cons b bs1 =>
    rw [StarSystem.flatten] at h
    simp only [List.map_cons] at h
    have hb : b.tag = s.primary.tag := (List.cons.inj h).1
    have hrest : bs1.map CelestialBody.tag =
        ((s.planets.map Planet.body).map CelestialBody.tag ++
          (s.asteroids.map CelestialBody.tag ++
            (s.stellar_remnants.map CelestialBody.tag ++
              ((s.planets.map Planet.moons).flatten).map CelestialBody.tag))) := by
      have := (List.cons.inj h).2
      simpa [List.map_append] using this
    have hlenP : ((s.planets.map Planet.body).map CelestialBody.tag).length
        = s.planets.length := by simp
    have hlenA : (s.asteroids.map CelestialBody.tag).length = s.asteroids.length := by
      simp
    have hlenR : (s.stellar_remnants.map CelestialBody.tag).length
        = s.stellar_remnants.length := by simp
    have hP : (bs1.take s.planets.length).map CelestialBody.tag =
        (s.planets.map Planet.body).map CelestialBody.tag := by
      rw [List.map_take, hrest, List.take_left' hlenP]
    have hrest1 : ((bs1.drop s.planets.length).map CelestialBody.tag) =
        s.asteroids.map CelestialBody.tag ++
          (s.stellar_remnants.map CelestialBody.tag ++
            ((s.planets.map Planet.moons).flatten).map CelestialBody.tag) := by
      rw [List.map_drop, hrest, List.drop_left' hlenP]
    have hA : (((bs1.drop s.planets.length).take s.asteroids.length).map
        CelestialBody.tag) = s.asteroids.map CelestialBody.tag := by
      rw [List.map_take, hrest1, List.take_left' hlenA]
    have hrest2 : (((bs1.drop s.planets.length).drop s.asteroids.length).map
        CelestialBody.tag) =
        s.stellar_remnants.map CelestialBody.tag ++
          ((s.planets.map Planet.moons).flatten).map CelestialBody.tag := by
      rw [List.map_drop, hrest1, List.drop_left' hlenA]
    have hR : ((((bs1.drop s.planets.length).drop s.asteroids.length).take
        s.stellar_remnants.length).map CelestialBody.tag) =
        s.stellar_remnants.map CelestialBody.tag := by
      rw [List.map_take, hrest2, List.take_left' hlenR]
    have hM : ((((bs1.drop s.planets.length).drop s.asteroids.length).drop
        s.stellar_remnants.length).map CelestialBody.tag) =
        ((s.planets.map Planet.moons).flatten).map CelestialBody.tag := by
      rw [List.map_drop, hrest2, List.drop_left' hlenR]
    simp only [StarSystem.unflatten, StarSystem.tag, List.headI_cons, List.tail_cons]
    rw [hb, hA, hR, rebuildPlanets_tag s.planets _ _ hP hM]

lemma integrate_tag (sqrt : ℚ → ℚ) (s : StarSystem) (dt : ℚ) :
    (s.integrate sqrt dt).tag = s.tag := by
  by_cases h : s.flatten.length < 2
  · rw [integrate_of_small sqrt s dt h]
  · simp only [StarSystem.integrate, if_neg h]
    exact unflatten_tag s _
      (zipUpdate_map_tag s.flatten _ dt (le_of_eq (computeForces_length sqrt s.flatten).symm))

lemma stepOnce_tag (sqrt : ℚ → ℚ) (u : Universe) (dt : ℚ) :
    (u.stepOnce sqrt dt).tag = u.tag := by
  simp [Universe.stepOnce, Universe.tag, SuperCluster.tag, GalaxyCluster.tag,
    Galaxy.tag, List.map_map, Function.comp_def, integrate_tag]

lemma runFrom_tag (sqrt : ℚ → ℚ) (dt : ℚ) :
    ∀ (r : ℕ) (u : Universe) (g : RandState) (k nInt : ℕ)
      (log : List (ℕ × Option (String × String))) (tsys : Option ℕ),
      (Universe.runFrom sqrt dt u g k r nInt log tsys).univ.tag = u.tag := by
  intro r
  induction r with
  | zero => intro u g k nInt log tsys; rfl
  | succ n ih =>
    intro u g k nInt log tsys
    by_cases hk : k % 2 = 0
    · cases hEv : (u.stepOnce sqrt dt).randomQuantumEvent g with
      | mk ev g1 =>
        simp only [Universe.runFrom, if_pos hk, hEv]
        rw [ih, stepOnce_tag]
    · simp only [Universe.runFrom, if_neg hk]
      rw [ih, stepOnce_tag]

/-- The flattened body tags of a system, computed from its tag alone. -/
def tagBodies (t : SystemTag) : List BodyTag :=
  t.2.1 :: (t.2.2.1.map Prod.fst ++ t.2.2.2.1 ++ t.2.2.2.2 ++
    (t.2.2.1.map Prod.snd).flatten)

lemma flatten_map_tag (s : StarSystem) :
    s.flatten.map CelestialBody.tag = tagBodies s.tag := by
  simp [StarSystem.flatten, StarSystem.tag, tagBodies, Planet.tag,
    List.map_append, List.map_flatten, List.map_map, Function.comp_def]

/-- The dynamical body tags of a galaxy, from its tag alone. -/
def galaxyTagBodies (t : String × List SystemTag × List Nebula ×
    List GlobularCluster × Option CelestialBody × Option Quasar) : List BodyTag :=
  (t.2.1.map tagBodies).flatten

lemma galaxy_bodies_tag (gal : Galaxy) :
    gal.allBodies.map CelestialBody.tag = galaxyTagBodies gal.tag := by
  simp [Galaxy.allBodies, Galaxy.tag, galaxyTagBodies, List.map_flatten,
    List.map_map, Function.comp_def, flatten_map_tag]

def gcTagBodies (t : String × List (String × List SystemTag × List Nebula ×
    List GlobularCluster × Option CelestialBody × Option Quasar)) : List BodyTag :=
  (t.2.map galaxyTagBodies).flatten

lemma gc_bodies_tag (gc : GalaxyCluster) :
    gc.allBodies.map CelestialBody.tag = gcTagBodies gc.tag := by
  simp [GalaxyCluster.allBodies, GalaxyCluster.tag, gcTagBodies, List.map_flatten,
    List.map_map, Function.comp_def, galaxy_bodies_tag]

def scTagBodies (t : String × List (String × List (String × List SystemTag ×
    List Nebula × List GlobularCluster × Option CelestialBody × Option Quasar))) :
    List BodyTag :=
  (t.2.map gcTagBodies).flatten

lemma sc_bodies_tag (sc : SuperCluster) :
    sc.allBodies.map CelestialBody.tag = scTagBodies sc.tag := by
  simp [SuperCluster.allBodies, SuperCluster.tag, scTagBodies, List.map_flatten,
    List.map_map, Function.comp_def, gc_bodies_tag]

lemma universe_bodies_tag (u : Universe) :
    u.allBodies.map CelestialBody.tag = (u.tag.map scTagBodies).flatten := by
  simp [Universe.allBodies, Universe.tag, List.map_flatten, List.map_map,
    Function.comp_def, sc_bodies_tag]

/-- Claim C8: `integrate` (and hence each step of `run`) mutates only the
kinematic fields of bodies.  Formally: the tag of a star system — its
name, every body's name and mass, and the shape, order and moon
distribution of the planet/asteroid/remnant collections — is preserved by
`integrate`; the tag of the whole universe (additionally recording the
untouched decorative entities) is preserved by `run`; consequently, if
every reachable dynamical body has non-negative mass before a run, this
still holds afterwards (and at every intermediate step, each being itself
a shorter run). -/
theorem claim8_integrate_frame (sqrt : ℚ → ℚ) (s : StarSystem) (dt : ℚ)
    (u : Universe) (g : RandState) (steps : ℕ) :
    (s.integrate sqrt dt).tag = s.tag ∧
      (u.run sqrt g steps dt).univ.tag = u.tag ∧
      ((∀ b ∈ u.allBodies, 0 ≤ b.mass) →
        ∀ b ∈ (u.run sqrt g steps dt).univ.allBodies, 0 ≤ b.mass) := by
  have hrun : (u.run sqrt g steps dt).univ.tag = u.tag :=
    runFrom_tag sqrt dt steps u g 0 0 [] none
  refine ⟨integrate_tag sqrt s dt, hrun, ?_⟩
  intro hmass b hb
  have hmem : b.tag ∈ (u.run sqrt g steps dt).univ.allBodies.map CelestialBody.tag :=
    List.mem_map_of_mem CelestialBody.tag hb
  rw [universe_bodies_tag, hrun, ← universe_bodies_tag] at hmem
  obtain ⟨b0, hb0, htag⟩ := List.mem_map.mp hmem
  have : b0.mass = b.mass := congrArg Prod.snd htag
  exact this ▸ hmass b0 hb0

theorem claim8_witness :
    (twoBodySystem.integrate sampleSqrt 86400).tag = twoBodySystem.tag ∧
      (oneSystemUniverse.run sampleSqrt sampleRand 6 86400).univ.tag =
        oneSystemUniverse.tag ∧
      ∀ b ∈ (oneSystemUniverse.run sampleSqrt sampleRand 6 86400).univ.allBodies,
        0 ≤ b.mass := by
  have hmass : ∀ b ∈ oneSystemUniverse.allBodies, 0 ≤ b.mass := by
    intro b hb
    have hcases : b = bodyA ∨ b = bodyB := by
      simpa [oneSystemUniverse, Universe.allBodies, SuperCluster.allBodies,
        GalaxyCluster.allBodies, Galaxy.allBodies, StarSystem.flatten,
        twoBodySystem] using hb
    rcases hcases with rfl | rfl
    · norm_num [bodyA]
    · norm_num [bodyB]
  obtain ⟨h1, h2, h3⟩ :=
    claim8_integrate_frame sampleSqrt twoBodySystem 86400 oneSystemUniverse
      sampleRand 6
  exact ⟨h1, h2, h3 hmass⟩

/-! The second, near-duplicate source file.  The `BE` namespace transcribes
the core operations of src/Python Models/butterfly_effect.py (lines 88–95,
96–102 and 127–140), over the same data structures; claim C10 states that
they are extensionally equal to the classic_universe.py versions above. -/

namespace BE

/-- `CelestialBody.force_from` of butterfly_effect.py:
```
dx, dy = other.x - self.x, other.y - self.y
r2 = dx*dx + dy*dy
if r2 < 1e-10: return (0., 0.)
F = Universe.G * self.mass * other.mass / r2
r = math.sqrt(r2)
return F*dx/r, F*dy/r
``` -/
def force_from (sqrt : ℚ → ℚ) (self other : CelestialBody) : ℚ × ℚ :=
  let dx := other.x - self.x
  let dy := other.y - self.y
  let r2 := dx * dx + dy * dy
  if r2 < 1 / 10 ^ 10 then (0, 0)
  else
    let F := Universe.G * self.mass * other.mass / r2
    let r := sqrt r2
    (F * dx / r, F * dy / r)

/-- `CelestialBody.update` of butterfly_effect.py:
```
if self.mass <= 0: return
ax, ay = fx / self.mass, fy / self.mass
self.vx += ax * dt; self.vy += ay * dt
self.x += self.vx * dt; self.y += self.vy * dt
``` -/
def update (self : CelestialBody) (fx fy dt : ℚ) : CelestialBody :=
  if self.mass ≤ 0 then self
  else
    let ax := fx / self.mass
    let ay := fy / self.mass
    let vx1 := self.vx + ax * dt
    let vy1 := self.vy + ay * dt
    { self with vx := vx1, vy := vy1, x := self.x + vx1 * dt, y := self.y + vy1 * dt }

/-- The flattened body list of butterfly_effect.py's `integrate`. -/
def flatten (s : StarSystem) : List CelestialBody :=
  s.primary ::
    (s.planets.map Planet.body ++ s.asteroids ++ s.stellar_remnants ++
      (s.planets.map Planet.moons).flatten)

/-- One inner-loop iteration of butterfly_effect.py's pair loop. -/
def pairStep (sqrt : ℚ → ℚ) (bodies : List CelestialBody) (i : ℕ)
    (forces : List (ℚ × ℚ)) (j : ℕ) : List (ℚ × ℚ) :=
  let f := BE.force_from sqrt (bodies.getD i default) (bodies.getD j default)
  let forces1 := forces.set i (forces.getD i 0 + f)
  forces1.set j (forces1.getD j 0 - f)

/-- The pair loop of butterfly_effect.py's `integrate`. -/
def computeForces (sqrt : ℚ → ℚ) (bodies : List CelestialBody) : List (ℚ × ℚ) :=
  (List.range bodies.length).foldl
    (fun forces i =>
      ((List.range bodies.length).drop (i + 1)).foldl (BE.pairStep sqrt bodies i) forces)
    (List.replicate bodies.length (0, 0))

def rebuildPlanets : List Planet → List CelestialBody → List CelestialBody → List Planet
  | [], _, _ => []
  | p :: ps, pbodies, ms =>
    { body := pbodies.headI, moons := ms.take p.moons.length } ::
      BE.rebuildPlanets ps pbodies.tail (ms.drop p.moons.length)

def unflatten (s : StarSystem) (bs : List CelestialBody) : StarSystem :=
  let rest0 := bs.tail
  let pbodies := rest0.take s.planets.length
  let rest1 := rest0.drop s.planets.length
  let asts := rest1.take s.asteroids.length
  let rest2 := rest1.drop s.asteroids.length
  let rems := rest2.take s.stellar_remnants.length
  let moonsPart := rest2.drop s.stellar_remnants.length
  { s with
    primary := bs.headI
    planets := BE.rebuildPlanets s.planets pbodies moonsPart
    asteroids := asts
    stellar_remnants := rems }

/-- `StarSystem.integrate` of butterfly_effect.py. -/
def integrate (sqrt : ℚ → ℚ) (s : StarSystem) (dt : ℚ) : StarSystem :=
  let bodies := BE.flatten s
  let n := bodies.length
  if n < 2 then s
  else
    let forces := BE.computeForces sqrt bodies
    BE.unflatten s ((bodies.zip forces).map fun bf => BE.update bf.1 bf.2.1 bf.2.2 dt)

end BE

lemma BE_update_eq (b : CelestialBody) (fx fy dt : ℚ) :
    BE.update b fx fy dt = b.update fx fy dt := rfl

lemma BE_rebuildPlanets_eq :
    ∀ (ps : List Planet) (cs ms : List CelestialBody),
      BE.rebuildPlanets ps cs ms = rebuildPlanets ps cs ms := by
  intro ps
  induction ps with
  | nil => intro cs ms; rfl
  | cons p ps ih =>
    intro cs ms
    simp only [BE.rebuildPlanets, rebuildPlanets, ih]

lemma BE_unflatten_eq (s : StarSystem) (bs : List CelestialBody) :
    BE.unflatten s bs = s.unflatten bs := by
  simp only [BE.unflatten, StarSystem.unflatten, BE_rebuildPlanets_eq]

/-- Claim C10: the two near-duplicate source files implement extensionally
equal core operations: `force_from`, `update` and `integrate` of
butterfly_effect.py (namespace `BE`) agree with those of
classic_universe.py on all inputs. -/
theorem claim10_files_equivalent :
    (∀ (sqrt : ℚ → ℚ) (a b : CelestialBody),
        BE.force_from sqrt a b = a.force_from sqrt b) ∧
      (∀ (b : CelestialBody) (fx fy dt : ℚ), BE.update b fx fy dt = b.update fx fy dt) ∧
      (∀ (sqrt : ℚ → ℚ) (s : StarSystem) (dt : ℚ),
        BE.integrate sqrt s dt = s.integrate sqrt dt) := by
  refine ⟨fun _ _ _ => rfl, fun _ _ _ _ => rfl, fun sqrt s dt => ?_⟩
  have hflat : BE.flatten s = s.flatten := rfl
  have hcf : ∀ bs : List CelestialBody, BE.computeForces sqrt bs = computeForces sqrt bs :=
    fun _ => rfl
  simp only [BE.integrate, StarSystem.integrate, hflat, hcf, BE_update_eq,
    BE_unflatten_eq]

end Cosmos
